import Mathlib

/-!
Shallow embedding of the order-book snapshot-and-sync scripts
(`poll_and_sync.py`, `multi_poll_orderbook.py`, `eth_poll_orderbook.py`,
`upload_drive.py`) and proofs about the claims of the spec.

Modelling conventions:
- Prices are rationals (`ℚ`); the Python conversion `float(x)` on an order-book level
  is embedded as the identity on the already-numeric price, and the CSV
  writer stringification of a float is `floatRepr`.
- A CSV file is a list of records (`Row`), each record a list of cells;
  one record corresponds to one line of the file.  A file that may be
  absent on disk is `Option (List Row)` with `none` = "no such file".
- Effects (env vars, the Drive store, the exchange) are passed as explicit
  parameters; `sys.exit(1)` paths are `Except`/result-record failures.
- Output to stderr is modelled, where a claim needs it, as a list of
  emitted log lines.
-/

namespace Eyob

/-- One parsed CSV record: the list of cells of one line of the ledger. -/
abbrev Row := List String

/-- An order-book response: bid and ask price levels, best level first,
each level a (price, amount) pair — the shape of the ccxt result
`fetch_order_book(symbol, limit=1)["bids"]/["asks"]`. -/
structure OrderBook where
  bids : List (ℚ × ℚ)
  asks : List (ℚ × ℚ)
deriving Repr, DecidableEq

/-- Rendering of a numeric cell by the CSV writer (Python writes the
decimal representation of the float); mirrors the `Rat` `ToString`
instance so that a present value always renders to a non-empty string. -/
def floatRepr (q : ℚ) : String :=
  if q.den = 1 then q.num.repr else q.num.repr ++ "/" ++ q.den.repr

/-- One cell of a data row: `bid if bid is not None else ""` — an absent
value becomes the empty string, a present value its numeric rendering. -/
def cellOf : Option ℚ → String
  | none => ""
  | some q => floatRepr q

/-- The Python call `sym.replace("/", "_")`: every separator char becomes `_`. -/
def underscored (sym : String) : String :=
  (sym.data.map (fun c => if c = '/' then '_' else c)).asString

namespace PollAndSync

/-- The constant `REMOTE_FILENAME` in `poll_and_sync.py`. -/
def REMOTE_FILENAME : String := "orderbook_snapshots.csv"

/-- The constant `WANTED_SYMBOLS` in `poll_and_sync.py`. -/
def WANTED_SYMBOLS : List String :=
  ["SUI/USDT", "WBTC/USDT", "STETH/USDT", "TRX/USDT", "ADA/USDT",
   "DOGE/USDT", "BNB/USDT", "SOL/USDT", "XRP/USDT", "BTC/USDT"]

/-- The function `get_drive_service`: reads the `GDRIVE_SA_JSON` env var (here the
`saJson` parameter, `none` when unset) and parses it into service-account
credentials (`parse`, `none` on a parse exception); either failure is a
`sys.exit(1)`.  No other credential source is consulted. -/
def get_drive_service {α : Type} (saJson : Option String)
    (parse : String → Option α) : Except String α :=
  match saJson with
  | none => .error "[ERROR] Env var GDRIVE_SA_JSON not set"
  | some s =>
    match parse s with
    | none => .error "[ERROR] Failed to parse service account JSON"
    | some creds => .ok creds

/-- The symbol-filtering loop of `init_exchange_and_filter_symbols`:
`valid = [sym for sym in wanted if sym in available]`. -/
def resolveSymbols (wanted : List String) (available : List String) :
    List String :=
  wanted.filter (fun s => available.contains s)

/-- The function `init_exchange_and_filter_symbols` after a successful `load_markets()`:
filter `WANTED_SYMBOLS` against the listed symbols of the exchange and
`sys.exit(1)` when nothing survives. -/
def init_exchange_and_filter_symbols (available : List String) :
    Except String (List String) :=
  let valid := resolveSymbols WANTED_SYMBOLS available
  if valid.isEmpty then
    .error "[ERROR] None of the requested symbols are on Gate.io Spot. Exiting."
  else
    .ok valid

/-- The stderr line `fetch_best_bid_ask` prints when the provider call
raises. -/
def warnLine (symbol : String) (e : String) : String :=
  "[WARN] fetch_order_book failed for " ++ symbol ++ ": " ++ e

/-- The function `fetch_best_bid_ask`: on a successful order-book response take the top
price of each side when that side is non-empty (`ob["bids"][0][0] if
ob["bids"] else None`); on any exception return `(None, None)` and print a
warning.  The second component is the list of emitted stderr lines. -/
def fetch_best_bid_ask (symbol : String) (result : Except String OrderBook) :
    (Option ℚ × Option ℚ) × List String :=
  match result with
  | .ok ob => ((ob.bids.head?.map Prod.fst, ob.asks.head?.map Prod.fst), [])
  | .error e => ((none, none), [warnLine symbol e])

/-- The polling loop of `main` step 6: one `fetch_best_bid_ask` per valid
symbol, in list order, collecting the `(bid, ask)` pairs. -/
def fetchAll (books : String → Except String OrderBook)
    (symbols : List String) : List (Option ℚ × Option ℚ) :=
  symbols.map (fun s => (fetch_best_bid_ask s (books s)).1)

/-- The header built by `append_row_to_local_csv`:
`timestamp_utc` then `<base>_bid`, `<base>_ask` per symbol with
`base = sym.replace("/", "_")`. -/
def csvHeader (symbols : List String) : Row :=
  "timestamp_utc" ::
    symbols.flatMap (fun sym =>
      [underscored sym ++ "_bid", underscored sym ++ "_ask"])

/-- The flattening loop of `append_row_to_local_csv`: per `(bid, ask)` pair
append `bid if bid is not None else ""` then the same for `ask`. -/
def flattenCols (dataCols : List (Option ℚ × Option ℚ)) : List String :=
  dataCols.flatMap (fun p => [cellOf p.1, cellOf p.2])

/-- The function `append_row_to_local_csv`: build the header and the data row
`[timestamp] + flattened`; if the file does not exist write header then
row, otherwise append only the row.  The only test performed on an
existing file is `os.path.isfile` — its content is never inspected. -/
def append_row_to_local_csv (ts : String) (symbols : List String)
    (dataCols : List (Option ℚ × Option ℚ)) (file : Option (List Row)) :
    List Row :=
  let row : Row := ts :: flattenCols dataCols
  match file with
  | none => [csvHeader symbols, row]
  | some rows => rows ++ [row]

/-- Whether the first line of a file begins with the token `timestamp_utc`
(first cell of the first record starts with it) — the test the spec uses for a
well-formed ledger header. -/
def beginsWithHeaderToken (rows : List Row) : Bool :=
  match rows with
  | (c :: _) :: _ => "timestamp_utc".data.isPrefixOf c.data
  | _ => false

/-- The upload performed at the end of a run (`upload_csv_to_drive`):
update the existing Drive object in place when one was found, otherwise
create a new object named `REMOTE_FILENAME` in the folder.  `noUpload`
records a run that aborted before step 8. -/
inductive UploadAction where
  | noUpload
  | update (fileId : String) (content : List Row)
  | create (name : String) (folderId : String) (content : List Row)
deriving Repr, DecidableEq

/-- The function `upload_csv_to_drive`: update vs create, keyed on the previously found
remote file id. -/
def upload_csv_to_drive (content : List Row) (folderId : String)
    (existing : Option String) : UploadAction :=
  match existing with
  | some fid => .update fid content
  | none => .create REMOTE_FILENAME folderId content

/-- Observable outcome of one `main` run: the final content at
`LOCAL_CSV_PATH` (`none` = no file), the upload performed, and whether the
run completed without `sys.exit(1)`. -/
structure MainResult where
  localFile : Option (List Row)
  upload : UploadAction
  ok : Bool
deriving Repr, DecidableEq

/-- The function `main` of `poll_and_sync.py`, steps 1–8, parameterised over the
environment: `folderId` (env `GDRIVE_FOLDER_ID`), `saJson`/`parse`
(credentials), `store` (the remote object for `(REMOTE_FILENAME, folder)`:
its id and content, `none` when absent), `available`/`books` (the
exchange), `ts` (the timestamp of the run) and `initLocal` (the pre-run content
at `LOCAL_CSV_PATH`).  Step 4 overwrites the local file with the download
when a remote object exists and deletes any stale local copy otherwise;
both happen before the symbol filtering of step 5. -/
def poll_main {α : Type} (folderId : Option String) (saJson : Option String)
    (parse : String → Option α) (store : Option (String × List Row))
    (available : List String) (books : String → Except String OrderBook)
    (ts : String) (initLocal : Option (List Row)) : MainResult :=
  match folderId with
  | none => ⟨initLocal, .noUpload, false⟩
  | some fid =>
    match get_drive_service saJson parse with
    | .error _ => ⟨initLocal, .noUpload, false⟩
    | .ok _ =>
      let remoteId := store.map Prod.fst
      let local0 : Option (List Row) :=
        match store with
        | some (_, content) => some content
        | none => none
      match init_exchange_and_filter_symbols available with
      | .error _ => ⟨local0, .noUpload, false⟩
      | .ok valid =>
        let dataCols := fetchAll books valid
        let newLocal := append_row_to_local_csv ts valid dataCols local0
        ⟨some newLocal, upload_csv_to_drive newLocal fid remoteId, true⟩

/-- One run of the append step as `main` performs it, for iterating runs
against one local file (claim about N successive appends). -/
def appendRuns (symbols : List String)
    (inputs : List (String × List (Option ℚ × Option ℚ)))
    (file : Option (List Row)) : Option (List Row) :=
  inputs.foldl (fun f p => some (append_row_to_local_csv p.1 symbols p.2 f)) file

end PollAndSync

namespace MultiPoll

/-- The function `append_row_to_csv` of `multi_poll_orderbook.py`: same header/row
construction as `append_row_to_local_csv` of `poll_and_sync.py`, with the
timestamp passed in by the caller; writes a header only when the file does
not exist. -/
def append_row_to_csv (timestamp : String) (symbols : List String)
    (dataCols : List (Option ℚ × Option ℚ)) (file : Option (List Row)) :
    List Row :=
  let header : Row :=
    "timestamp_utc" ::
      symbols.flatMap (fun sym =>
        [underscored sym ++ "_bid", underscored sym ++ "_ask"])
  let flattened := dataCols.flatMap (fun p => [cellOf p.1, cellOf p.2])
  let row : Row := timestamp :: flattened
  match file with
  | none => [header, row]
  | some rows => rows ++ [row]

end MultiPoll

namespace EthPoll

/-- The header row `eth_poll_orderbook.py` writes when the CSV is absent. -/
def ethHeaderRow : Row := ["timestamp_utc", "best_bid", "best_ask"]

/-- The header-creation step of `main` in `eth_poll_orderbook.py`: if the
CSV does not exist, create it with the header row; otherwise leave it
exactly as it is. -/
def ensureCsv (file : Option (List Row)) : List Row :=
  match file with
  | none => [ethHeaderRow]
  | some rows => rows

/-- The function `main` of `eth_poll_orderbook.py` after `load_markets()`: ensure the
CSV exists with a header, then append `[ts, best_bid, best_ask]` only when
both the bid side and the ask side of the fetched book are non-empty
(`if ob["bids"] and ob["asks"]`); otherwise append nothing. -/
def eth_main (ts : String) (ob : OrderBook) (file : Option (List Row)) :
    List Row :=
  let base := ensureCsv file
  match ob.bids, ob.asks with
  | b :: _, a :: _ => base ++ [[ts, floatRepr b.1, floatRepr a.1]]
  | _, _ => base

end EthPoll

/-- Modelled from the spec (§4.5, CredentialResolver contract), for
comparison with `get_drive_service` of the code: try (a) the service
identity, else (b) a cached user credential — `cached` holds the outcome
of refreshing it, `Except.error` meaning the refresh failed — else (c) the
interactive consent flow; (a) short-circuits, and a refresh failure in (b)
falls through to (c). -/
def specCredentialChain {κ : Type} (serviceIdentity : Option κ)
    (cached : Option (Except Unit κ)) (interactive : Option κ) : Option κ :=
  match serviceIdentity with
  | some c => some c
  | none =>
    match cached with
    | some (.ok c) => some c
    | some (.error _) => interactive
    | none => interactive

/-- The ledger content a successful run leaves behind, as a function of the
timestamp, the exchange state and the post-download local content: the
appended file built from the resolved symbols and their fetched quotes. -/
def runLedger (ts : String) (available : List String)
    (books : String → Except String OrderBook)
    (local0 : Option (List Row)) : List Row :=
  PollAndSync.append_row_to_local_csv ts
    (PollAndSync.resolveSymbols PollAndSync.WANTED_SYMBOLS available)
    (PollAndSync.fetchAll books
      (PollAndSync.resolveSymbols PollAndSync.WANTED_SYMBOLS available))
    local0

section Proofs

open PollAndSync

/-- Lower bound on the digit list produced by the fuel-driven core of
`Nat.repr`: the accumulator never shrinks. -/
theorem toDigitsCore_len_ge (b : Nat) :
    ∀ (f n : Nat) (l : List Char), l.length ≤ (Nat.toDigitsCore b f n l).length := by
  intro f
  induction f with
  | zero => intro n l; simp [Nat.toDigitsCore]
  | succ f ih =>
    intro n l
    simp only [Nat.toDigitsCore]
    by_cases h : n / b = 0
    · simp [h]
    · simp only [h, if_false]
      calc l.length ≤ (Nat.digitChar (n % b) :: l).length := by simp
        _ ≤ _ := ih (n / b) (Nat.digitChar (n % b) :: l)

/-- The decimal representation of a natural number is never the empty
string. -/
theorem natRepr_ne_empty (n : Nat) : Nat.repr n ≠ "" := by
  unfold Nat.repr
  intro h
  have hd : (Nat.toDigits 10 n) = [] := by
    have h2 := congrArg String.data h
    simpa [List.asString] using h2
  unfold Nat.toDigits at hd
  simp only [Nat.toDigitsCore] at hd
  by_cases h2 : n / 10 = 0
  · simp [h2] at hd
  · simp only [h2, if_false] at hd
    have hge := toDigitsCore_len_ge 10 n (n / 10) [Nat.digitChar (n % 10)]
    rw [hd] at hge
    simp at hge

/-- The decimal representation of an integer is never the empty string. -/
theorem intRepr_ne_empty (i : Int) : Int.repr i ≠ "" := by
  cases i with
  | ofNat m => exact natRepr_ne_empty m
  | negSucc m =>
    intro h
    have hlen := congrArg String.length h
    rw [Int.repr] at hlen
    rw [String.length_append] at hlen
    have hone : ("-" : String).length = 1 := rfl
    have hz : ("" : String).length = 0 := rfl
    omega

/-- A present price always renders to a non-empty cell. -/
theorem floatRepr_ne_empty (q : ℚ) : floatRepr q ≠ "" := by
  unfold floatRepr
  by_cases h : q.den = 1
  · simpa [h] using intRepr_ne_empty q.num
  · simp only [h, if_false]
    intro he
    have hlen := congrArg String.length he
    rw [String.length_append, String.length_append] at hlen
    have hone : ("/" : String).length = 1 := rfl
    have hz : ("" : String).length = 0 := rfl
    omega

/-- C4: for every wanted list and available set, the resolved list is a
sublist (hence relative-order-preserving subsequence) of `wanted`, a
symbol is in it exactly when it is wanted and available, duplicates pass
through with their multiplicity, and the batch fetch is index-aligned:
output length equals input length and entry `i` is the quote fetched for
symbol `i`. -/
theorem resolve_preserves_order_and_fetchAll_aligned
    (wanted available syms : List String)
    (books : String → Except String OrderBook) :
    (resolveSymbols wanted available).Sublist wanted ∧
    (∀ s, s ∈ resolveSymbols wanted available ↔
        s ∈ wanted ∧ available.contains s = true) ∧
    (∀ s, (resolveSymbols wanted available).count s =
        if available.contains s then wanted.count s else 0) ∧
    (fetchAll books syms).length = syms.length ∧
    (∀ i : Nat, (fetchAll books syms)[i]? =
        (syms[i]?).map (fun t => (fetch_best_bid_ask t (books t)).1)) := by
  refine ⟨List.filter_sublist _, fun s => List.mem_filter, fun s => ?_,
    by simp [fetchAll], fun i => by simp [fetchAll]⟩
  by_cases h : available.contains s = true
  · rw [if_pos h]
    exact List.count_filter h
  · rw [if_neg h]
    exact List.count_eq_zero.mpr (fun hm => h (List.mem_filter.mp hm).2)

/-- C6: on a successful order-book response the bid side of the quote is
present exactly when the response has at least one bid level, and
independently for the ask side; the two sides are the heads of the two
level lists, never coupled. -/
theorem fetch_quote_sides_independent (s : String) (ob : OrderBook) :
    (((fetch_best_bid_ask s (.ok ob)).1).1.isSome ↔ ob.bids ≠ []) ∧
    (((fetch_best_bid_ask s (.ok ob)).1).2.isSome ↔ ob.asks ≠ []) ∧
    ((fetch_best_bid_ask s (.ok ob)).1).1 = ob.bids.head?.map Prod.fst ∧
    ((fetch_best_bid_ask s (.ok ob)).1).2 = ob.asks.head?.map Prod.fst := by
  refine ⟨?_, ?_, rfl, rfl⟩
  · cases hb : ob.bids <;> simp [fetch_best_bid_ask, hb]
  · cases ha : ob.asks <;> simp [fetch_best_bid_ask, ha]

/-- C7: the data row appended to an existing file is the timestamp
followed, per quote in order, by the bid cell then the ask cell; an absent
side is the empty string, a present side (zero included) renders to a
non-empty numeric string, so absent and zero are always distinguishable. -/
theorem row_timestamp_then_cells_absent_vs_zero (ts : String)
    (symbols : List String) (dataCols : List (Option ℚ × Option ℚ)) :
    (∀ rows : List Row,
        append_row_to_local_csv ts symbols dataCols (some rows) =
          rows ++ [ts :: dataCols.flatMap (fun p => [cellOf p.1, cellOf p.2])]) ∧
    cellOf none = "" ∧
    (∀ q : ℚ, cellOf (some q) = floatRepr q ∧ cellOf (some q) ≠ "") ∧
    (∀ q : ℚ, flattenCols [(none, some q)] = ["", floatRepr q]) ∧
    cellOf (some 0) ≠ cellOf none := by
  refine ⟨fun rows => rfl, rfl, fun q => ⟨rfl, floatRepr_ne_empty q⟩,
    fun q => rfl, ?_⟩
  simpa [cellOf] using floatRepr_ne_empty 0

/-- C5: a provider failure for one symbol is converted to the fully-absent
quote plus a warning line on the observability sink and never propagates —
the batch still produces one entry per symbol, every entry computed from
that symbol alone. -/
theorem fetch_failure_confined_to_symbol
    (books : String → Except String OrderBook) (syms : List String)
    (s e : String) (h : books s = .error e) :
    fetch_best_bid_ask s (books s) = ((none, none), [warnLine s e]) ∧
    (fetchAll books syms).length = syms.length ∧
    (∀ i : Nat, (fetchAll books syms)[i]? =
        (syms[i]?).map (fun t => (fetch_best_bid_ask t (books t)).1)) := by
  refine ⟨by rw [h]; rfl, by simp [fetchAll], fun i => by simp [fetchAll]⟩

/-- Witness for C5 at a concrete failing provider. -/
theorem fetch_failure_confined_to_symbol_witness :
    fetch_best_bid_ask "BTC/USDT" (Except.error "boom") =
      ((none, none), [warnLine "BTC/USDT" "boom"]) ∧
    (fetchAll (fun _ => Except.error "boom") ["BTC/USDT", "ETH/USDT"]).length =
      (["BTC/USDT", "ETH/USDT"] : List String).length ∧
    (∀ i : Nat,
        (fetchAll (fun _ => Except.error "boom") ["BTC/USDT", "ETH/USDT"])[i]? =
          ((["BTC/USDT", "ETH/USDT"] : List String)[i]?).map
            (fun t => (fetch_best_bid_ask t
              ((fun _ => Except.error "boom") t)).1)) :=
  fetch_failure_confined_to_symbol (fun _ => Except.error "boom")
    ["BTC/USDT", "ETH/USDT"] "BTC/USDT" "boom" rfl

/-- C1 fails on the code: appending to an existing malformed (headerless)
one-line file yields two lines, not the claimed three, and the first line
is still not the synthesized header — no self-healing rewrite happens. -/
theorem append_malformed_not_selfhealed :
    beginsWithHeaderToken [["9.9", "1.1"]] = false ∧
    (append_row_to_local_csv "T0" ["BTC/USDT"] [(some 1, some 2)]
        (some [["9.9", "1.1"]])).length = 2 ∧
    (append_row_to_local_csv "T0" ["BTC/USDT"] [(some 1, some 2)]
        (some [["9.9", "1.1"]])).head? ≠ some (csvHeader ["BTC/USDT"]) := by
  decide

/-- C1 amended: for every existing ledger file — malformed first line
included — one append call appends exactly the one new data row after the
original content verbatim and writes no header, so a malformed file with K
lines has K + 1 lines afterwards; the near-identical
`multi_poll_orderbook.py` variant behaves the same. -/
theorem append_existing_file_appends_single_row (ts : String)
    (symbols : List String) (dataCols : List (Option ℚ × Option ℚ))
    (rows : List Row) (_hm : beginsWithHeaderToken rows = false) :
    append_row_to_local_csv ts symbols dataCols (some rows) =
      rows ++ [ts :: flattenCols dataCols] ∧
    (append_row_to_local_csv ts symbols dataCols (some rows)).length =
      rows.length + 1 ∧
    MultiPoll.append_row_to_csv ts symbols dataCols (some rows) =
      rows ++ [ts :: flattenCols dataCols] := by
  refine ⟨rfl, by simp [append_row_to_local_csv], rfl⟩

/-- Witness for the amended C1 at a concrete malformed one-line file. -/
theorem append_existing_file_appends_single_row_witness :
    append_row_to_local_csv "T0" [] [] (some [["9.9"]]) =
      [["9.9"]] ++ [("T0" : String) :: flattenCols []] ∧
    (append_row_to_local_csv "T0" [] [] (some [["9.9"]])).length =
      ([["9.9"]] : List Row).length + 1 ∧
    MultiPoll.append_row_to_csv "T0" [] [] (some [["9.9"]]) =
      [["9.9"]] ++ [("T0" : String) :: flattenCols []] :=
  append_existing_file_appends_single_row "T0" [] [] [["9.9"]] (by decide)

/-- Iterating the append step over an existing file appends exactly the
data rows of the inputs, in order. -/
theorem appendRuns_from_existing (symbols : List String)
    (inputs : List (String × List (Option ℚ × Option ℚ))) :
    ∀ rows : List Row,
      appendRuns symbols inputs (some rows) =
        some (rows ++ inputs.map (fun p => p.1 :: flattenCols p.2)) := by
  induction inputs with
  | nil => intro rows; simp [appendRuns]
  | cons p rest ih =>
    intro rows
    have h1 : appendRuns symbols (p :: rest) (some rows) =
        appendRuns symbols rest (some (rows ++ [p.1 :: flattenCols p.2])) := rfl
    rw [h1, ih]
    simp

/-- C9: N ≥ 1 appends to an initially-absent ledger produce exactly one
header line first — `timestamp_utc` then per symbol the underscored
`_bid`/`_ask` columns — followed by exactly N data lines in append
order. -/
theorem ledger_one_header_then_n_rows (symbols : List String)
    (inputs : List (String × List (Option ℚ × Option ℚ)))
    (hne : inputs ≠ []) :
    appendRuns symbols inputs none =
      some (csvHeader symbols :: inputs.map (fun p => p.1 :: flattenCols p.2)) ∧
    (inputs.map (fun p => p.1 :: flattenCols p.2)).length = inputs.length ∧
    csvHeader symbols =
      "timestamp_utc" :: symbols.flatMap (fun sym =>
        [underscored sym ++ "_bid", underscored sym ++ "_ask"]) := by
  obtain ⟨p, rest, rfl⟩ := List.exists_cons_of_ne_nil hne
  refine ⟨?_, by simp, rfl⟩
  have h1 : appendRuns symbols (p :: rest) none =
      appendRuns symbols rest
        (some [csvHeader symbols, p.1 :: flattenCols p.2]) := rfl
  rw [h1, appendRuns_from_existing]
  simp

/-- Witness for C9: one append to an absent file, one absent bid. -/
theorem ledger_one_header_then_n_rows_witness :
    appendRuns ["BTC/USDT"] [("t1", [((none : Option ℚ), some (1 : ℚ))])] none =
      some (csvHeader ["BTC/USDT"] ::
        ([("t1", [((none : Option ℚ), some (1 : ℚ))])].map
          (fun p => p.1 :: flattenCols p.2))) ∧
    (([("t1", [((none : Option ℚ), some (1 : ℚ))])].map
        (fun p => p.1 :: flattenCols p.2))).length =
      [("t1", [((none : Option ℚ), some (1 : ℚ))])].length ∧
    csvHeader ["BTC/USDT"] =
      "timestamp_utc" :: (["BTC/USDT"] : List String).flatMap (fun sym =>
        [underscored sym ++ "_bid", underscored sym ++ "_ask"]) :=
  ledger_one_header_then_n_rows ["BTC/USDT"]
    [("t1", [((none : Option ℚ), some (1 : ℚ))])] (List.cons_ne_nil _ _)

/-- C10: the single-pair variant appends a data row exactly when both the
bid and the ask side of the fetched book are non-empty; a one-sided book
leaves the file as the header-ensured original, so a partial quote is
never persisted. -/
theorem eth_appends_iff_both_sides_present (ts : String) (ob : OrderBook)
    (file : Option (List Row)) :
    ((ob.bids = [] ∨ ob.asks = []) →
        EthPoll.eth_main ts ob file = EthPoll.ensureCsv file) ∧
    (∀ b bs a aas, ob.bids = b :: bs → ob.asks = a :: aas →
        EthPoll.eth_main ts ob file =
          EthPoll.ensureCsv file ++ [[ts, floatRepr b.1, floatRepr a.1]]) ∧
    (∀ rows, file = some rows → EthPoll.ensureCsv file = rows) ∧
    (EthPoll.eth_main ts ob file ≠ EthPoll.ensureCsv file ↔
        (ob.bids ≠ [] ∧ ob.asks ≠ [])) := by
  refine ⟨?_, ?_, fun rows hr => by rw [hr]; rfl, ?_⟩
  · rintro (hb | ha)
    · cases ha : ob.asks <;> simp [EthPoll.eth_main, hb, ha]
    · cases hb : ob.bids <;> simp [EthPoll.eth_main, hb, ha]
  · rintro b bs a aas hb ha
    simp [EthPoll.eth_main, hb, ha]
  · cases hb : ob.bids with
    | nil =>
      cases ha : ob.asks <;> simp [EthPoll.eth_main, hb, ha]
    | cons bl bls =>
      cases ha : ob.asks with
      | nil => simp [EthPoll.eth_main, hb, ha]
      | cons al als =>
        simp only [EthPoll.eth_main, hb, ha, ne_eq]
        constructor
        · intro _
          exact ⟨List.cons_ne_nil _ _, List.cons_ne_nil _ _⟩
        · intro _ heq
          have hlen := congrArg List.length heq
          simp at hlen

/-- C2 fails on the code: with a parsable service account, a remote object
present and an empty wanted/available intersection, the run aborts with no
upload — but only after step 4 has already overwritten the local ledger
with the downloaded remote copy, so the pre-run local content is not left
unchanged. -/
theorem no_valid_symbols_run_still_mutates_local :
    poll_main (α := Unit) (some "F") (some "SA") (fun _ => some ())
        (some ("id1", [["y"]])) [] (fun _ => Except.error "e") "T"
        (some [["x"]]) =
      ⟨some [["y"]], .noUpload, false⟩ ∧
    (some [["y"]] : Option (List Row)) ≠ some [["x"]] := by
  refine ⟨rfl, by decide⟩

/-- C2 amended: when the wanted/available intersection is empty the run
aborts fatally, appends no row and attempts no upload; however the local
ledger is not left at its pre-run content — step 4 has already replaced it
with the downloaded remote copy, or deleted it when no remote object
exists. -/
theorem no_valid_symbols_aborts_no_append_no_upload {α : Type}
    (fid saJson : String) (parse : String → Option α) (creds : α)
    (hp : parse saJson = some creds) (store : Option (String × List Row))
    (available : List String) (books : String → Except String OrderBook)
    (ts : String) (initLocal : Option (List Row))
    (hempty : resolveSymbols WANTED_SYMBOLS available = []) :
    (poll_main (some fid) (some saJson) parse store available books ts
        initLocal).ok = false ∧
    (poll_main (some fid) (some saJson) parse store available books ts
        initLocal).upload = .noUpload ∧
    (poll_main (some fid) (some saJson) parse store available books ts
        initLocal).localFile = store.map Prod.snd := by
  have hinit : init_exchange_and_filter_symbols available =
      .error "[ERROR] None of the requested symbols are on Gate.io Spot. Exiting." := by
    simp [init_exchange_and_filter_symbols, hempty]
  cases store with
  | none => simp [poll_main, get_drive_service, hp, hinit]
  | some pr =>
    obtain ⟨rid, content⟩ := pr
    simp [poll_main, get_drive_service, hp, hinit]

/-- Witness for the amended C2 at a concrete aborting run. -/
theorem no_valid_symbols_aborts_no_append_no_upload_witness :
    (poll_main (α := Unit) (some "F") (some "SA") (fun _ => some ())
        (some ("id1", [["y"]])) [] (fun _ => Except.error "e") "T"
        (some [["x"]])).ok = false ∧
    (poll_main (α := Unit) (some "F") (some "SA") (fun _ => some ())
        (some ("id1", [["y"]])) [] (fun _ => Except.error "e") "T"
        (some [["x"]])).upload = .noUpload ∧
    (poll_main (α := Unit) (some "F") (some "SA") (fun _ => some ())
        (some ("id1", [["y"]])) [] (fun _ => Except.error "e") "T"
        (some [["x"]])).localFile =
      (some ("id1", [["y"]]) : Option (String × List Row)).map Prod.snd :=
  no_valid_symbols_aborts_no_append_no_upload "F" "SA" (fun _ => some ()) ()
    rfl (some ("id1", [["y"]])) [] (fun _ => Except.error "e") "T"
    (some [["x"]]) rfl

/-- C3 fails on the code: with the service-identity locator unconfigured
the code aborts fatally, while the credential chain the spec describes
would fall through to a cached refreshed user credential and succeed — the
code has no step (b) and no step (c). -/
theorem credential_fallback_chain_absent :
    get_drive_service (α := Unit) none (fun _ => some ()) =
      .error "[ERROR] Env var GDRIVE_SA_JSON not set" ∧
    specCredentialChain (κ := Unit) none (some (.ok ())) none = some () := by
  exact ⟨rfl, rfl⟩

/-- C3 amended: credential resolution consults only the pre-provisioned
service identity — it succeeds exactly when the locator is configured and
its JSON parses, and an unconfigured locator is a fatal abort with no
cached-credential or interactive fallback attempted. -/
theorem credential_resolution_service_identity_only {α : Type}
    (saJson : Option String) (parse : String → Option α) :
    ((∃ c, get_drive_service saJson parse = .ok c) ↔
      (∃ s, saJson = some s ∧ (parse s).isSome)) ∧
    get_drive_service (α := α) none parse =
      .error "[ERROR] Env var GDRIVE_SA_JSON not set" := by
  refine ⟨⟨?_, ?_⟩, rfl⟩
  · rintro ⟨c, hc⟩
    cases saJson with
    | none => simp [get_drive_service] at hc
    | some s =>
      cases hps : parse s with
      | none => simp [get_drive_service, hps] at hc
      | some c2 => exact ⟨s, rfl, by simp [hps]⟩
  · rintro ⟨s, rfl, hs⟩
    obtain ⟨c, hc⟩ := Option.isSome_iff_exists.mp hs
    exact ⟨c, by simp [get_drive_service, hc]⟩

/-- C8: in a run that passes credential and symbol resolution, the result
does not depend on the pre-run local file at all; when the remote lookup
found an object the local ledger becomes the downloaded content plus the
appended row and the upload updates that same object id in place, and when
it found none the stale local copy is deleted so the append starts from an
absent file, and the upload creates a new object under the canonical
ledger filename in the target folder. -/
theorem sync_download_overwrite_or_clean_create {α : Type}
    (fid saJson : String) (parse : String → Option α) (creds : α)
    (hp : parse saJson = some creds) (store : Option (String × List Row))
    (available : List String) (books : String → Except String OrderBook)
    (ts : String) (initLocal initLocal2 : Option (List Row))
    (hvalid : resolveSymbols WANTED_SYMBOLS available ≠ []) :
    poll_main (some fid) (some saJson) parse store available books ts
        initLocal =
      poll_main (some fid) (some saJson) parse store available books ts
        initLocal2 ∧
    (∀ rid content, store = some (rid, content) →
        poll_main (some fid) (some saJson) parse store available books ts
            initLocal =
          ⟨some (runLedger ts available books (some content)),
           .update rid (runLedger ts available books (some content)),
           true⟩) ∧
    (store = none →
        poll_main (some fid) (some saJson) parse store available books ts
            initLocal =
          ⟨some (runLedger ts available books none),
           .create REMOTE_FILENAME fid (runLedger ts available books none),
           true⟩) := by
  have hemp : (resolveSymbols WANTED_SYMBOLS available).isEmpty = false := by
    simpa [List.isEmpty_iff] using hvalid
  have hinit : init_exchange_and_filter_symbols available =
      .ok (resolveSymbols WANTED_SYMBOLS available) := by
    simp [init_exchange_and_filter_symbols, hemp]
  cases store with
  | none =>
    refine ⟨?_, ?_, ?_⟩
    · simp [poll_main, get_drive_service, hp, hinit]
    · intro rid content h
      exact absurd h (by simp)
    · intro _
      simp [poll_main, get_drive_service, hp, hinit, runLedger,
        upload_csv_to_drive]
  | some pr =>
    obtain ⟨rid0, content0⟩ := pr
    refine ⟨?_, ?_, ?_⟩
    · simp [poll_main, get_drive_service, hp, hinit]
    · intro rid content h
      injection h with h2
      injection h2 with hr hc
      subst hr
      subst hc
      simp [poll_main, get_drive_service, hp, hinit, runLedger,
        upload_csv_to_drive]
    · intro h
      exact absurd h (by simp)

/-- Witness for C8 at a concrete run with no remote object. -/
theorem sync_download_overwrite_or_clean_create_witness :
    poll_main (α := Unit) (some "F") (some "SA") (fun _ => some ()) none
        WANTED_SYMBOLS (fun _ => Except.error "e") "T" (some [["x"]]) =
      poll_main (α := Unit) (some "F") (some "SA") (fun _ => some ()) none
        WANTED_SYMBOLS (fun _ => Except.error "e") "T" none ∧
    (∀ rid content, (none : Option (String × List Row)) = some (rid, content) →
        poll_main (α := Unit) (some "F") (some "SA") (fun _ => some ()) none
            WANTED_SYMBOLS (fun _ => Except.error "e") "T" (some [["x"]]) =
          ⟨some (runLedger "T" WANTED_SYMBOLS (fun _ => Except.error "e")
              (some content)),
           .update rid (runLedger "T" WANTED_SYMBOLS
              (fun _ => Except.error "e") (some content)),
           true⟩) ∧
    ((none : Option (String × List Row)) = none →
        poll_main (α := Unit) (some "F") (some "SA") (fun _ => some ()) none
            WANTED_SYMBOLS (fun _ => Except.error "e") "T" (some [["x"]]) =
          ⟨some (runLedger "T" WANTED_SYMBOLS (fun _ => Except.error "e") none),
           .create REMOTE_FILENAME "F"
             (runLedger "T" WANTED_SYMBOLS (fun _ => Except.error "e") none),
           true⟩) :=
  sync_download_overwrite_or_clean_create "F" "SA" (fun _ => some ()) () rfl
    none WANTED_SYMBOLS (fun _ => Except.error "e") "T" (some [["x"]]) none
    (by decide)

end Proofs

end Eyob
